import Mathlib

/-!
Verification development for the django_model_helpers library.

The Python sources embedded here:
  - model_helpers/key_value_field.py  (KeyValueContainer, KeyValueField)
  - model_helpers.py / model_helpers/cache_helpers.py  (cached_model_property)
  - model_helpers/model_choices.py  (Choices)
  - the SimpleGenericForeignKey field: its implementation is not part of the
    repository sources (only its tests in tests/test_generic_forgein_key.py and
    the declaring models in tests/simple_app/sample/models.py are), so that part
    is modelled from the specification, as flagged on each definition.

Python strings become `String`, Python ints become `Nat`/`Int`, dictionaries
become association lists in insertion order, a value that may be `None` becomes
an `Option`, and raised exceptions become `Except` errors.
-/

/-- Python exception kinds raised by the embedded code. -/
inductive PyErr where
  | typeError (msg : String)
  | valueError (msg : String)
  | validationError (msg : String)
  | assertionError (msg : String)
  | notRegistered (msg : String)
  | doesNotExist (msg : String)
deriving Repr, DecidableEq

/- ------------------------------------------------------------------
KeyValueContainer / KeyValueField
(src/model_helpers/key_value_field.py; same parsing logic in the older
src/model_helpers.py lines 398-412)
------------------------------------------------------------------ -/

/-- The set of characters removed by Python `str.strip()`. -/
def pyIsSpace (c : Char) : Bool :=
  c == ' ' || c == '\t' || c == '\n' || c == '\r' || c == '\x0b' || c == '\x0c'

/-- Python `line.strip()`: remove leading and trailing whitespace. -/
def pyStrip (s : String) : String :=
  ⟨((s.data.dropWhile pyIsSpace).reverse.dropWhile pyIsSpace).reverse⟩

/-- Whether the first list is a prefix of the second (an occurrence of the
separator at the current position). -/
def listStarts : List Char → List Char → Bool
  | [], _ => true
  | _ :: _, [] => false
  | p :: ps, c :: cs => p == c && listStarts ps cs

/-- Finds the first occurrence of `sep`, returning the characters before it
and the characters after it; `none` when `sep` does not occur.  The fuel
argument (instantiated with more than the list length) makes the recursion
structural. -/
def splitFirstAux (sep : List Char) : Nat → List Char → Option (List Char × List Char)
  | _, [] => none
  | 0, _ => none
  | fuel + 1, c :: rest =>
    if listStarts sep (c :: rest) then some ([], (c :: rest).drop sep.length)
    else
      match splitFirstAux sep fuel rest with
      | none => none
      | some (a, b) => some (c :: a, b)

/-- Python `sep in line` (substring containment) for a nonempty separator. -/
def strContains (line sep : String) : Bool :=
  (splitFirstAux sep.data (line.data.length + 1) line.data).isSome

/-- Python `line.split(sep, 1)`: split at the first occurrence of `sep` into
the part before it and the remainder. When `sep` does not occur, the whole line
is the first component (the source only calls this after checking occurrence). -/
def splitFirst (line sep : String) : String × String :=
  match splitFirstAux sep.data (line.data.length + 1) line.data with
  | none => (line, "")
  | some (a, b) => (⟨a⟩, ⟨b⟩)

/-- Splitting on every (non-overlapping, leftmost) occurrence of `sep`,
accumulating the current piece in reverse; fuel makes the recursion
structural. -/
def pySplitAux (sep : List Char) : Nat → List Char → List Char → List (List Char)
  | _, [], acc => [acc.reverse]
  | 0, l, acc => [acc.reverse ++ l]
  | fuel + 1, c :: rest, acc =>
    if listStarts sep (c :: rest) then
      acc.reverse :: pySplitAux sep fuel ((c :: rest).drop sep.length) []
    else pySplitAux sep fuel rest (c :: acc)

/-- Python `s.split(sep)` for a nonempty separator: every occurrence splits,
and empty pieces are kept. -/
def pySplit (s sep : String) : List String :=
  if sep = "" then [s]
  else (pySplitAux sep.data (s.data.length + 1) s.data []).map (fun l => ⟨l⟩)

/-- Python `int(s)` restricted to nonempty all-digit strings, as `toNat?`:
`none` on the empty string or on any non-digit character. -/
def pyToNatAux : List Char → Nat → Option Nat
  | [], acc => some acc
  | c :: cs, acc => if c.isDigit then pyToNatAux cs (acc * 10 + (c.toNat - 48)) else none

/-- Parse a decimal natural number, `none` when the string is empty or has a
non-digit character. -/
def pyToNat (s : String) : Option Nat :=
  match s.data with
  | [] => none
  | l => pyToNatAux l 0

/-- Python dict assignment `result[key] = value` on a dict kept in insertion
order: an existing key keeps its position and gets the new value, a new key is
appended at the end. -/
def dictInsert {α : Type} (d : List (String × α)) (k : String) (v : α) : List (String × α) :=
  if d.any (fun p => p.1 == k) then
    d.map (fun p => if p.1 == k then (k, v) else p)
  else d ++ [(k, v)]

/-- The loop of `KeyValueContainer._parse_string`: each line is stripped; blank
lines are skipped; a non-blank line without the separator raises `ValueError`;
otherwise the line is split at the first separator occurrence and both parts
are stripped before being stored. -/
def parseLines (sep : String) : List String → List (String × String) →
    Except String (List (String × String))
  | [], result => .ok result
  | line :: rest, result =>
    if pyStrip line = "" then parseLines sep rest result
    else if strContains (pyStrip line) sep then
      parseLines sep rest
        (dictInsert result (pyStrip (splitFirst (pyStrip line) sep).1)
          (pyStrip (splitFirst (pyStrip line) sep).2))
    else
      .error ("Invalid syntax in line \x27" ++ pyStrip line ++ "\x27\nExpected: key " ++
        sep ++ " value")

/-- `KeyValueContainer._parse_string` (key_value_field.py lines 32-50): an
empty string yields an empty dict; otherwise the string is split on newlines
and parsed line by line. -/
def parse_string (sep value : String) : Except String (List (String × String)) :=
  if value = "" then .ok []
  else parseLines sep (pySplit value "\n") []

/-- `KeyValueField.from_db_value` (key_value_field.py lines 93-97): building the
container from a string; a `ValueError` from parsing is re-raised as a
`ValidationError`.  Assigning a string to the field goes through this function
(`KeyValueField.set_value`). -/
def from_db_value (sep value : String) : Except PyErr (List (String × String)) :=
  match parse_string sep value with
  | .error e => .error (.validationError e)
  | .ok d => .ok d

/- ------------------------------------------------------------------
cached_model_property (src/model_helpers.py lines 93-184; the rewritten
src/model_helpers/cache_helpers.py keeps the same lookup/miss/store logic in
CachedFunction.__call__, with a hashed key)
------------------------------------------------------------------ -/

/-- The Django cache backend state: maps keys to stored values.  The outer
`Option` is presence of the key in the store; the inner `Option Nat` is the
stored Python value, which may itself be `None`. -/
abbrev CacheStore : Type := String → Option (Option Nat)

/-- Python `cache.get(key)`: returns the stored value, or `None` when the key
is absent — so a stored `None` is indistinguishable from a miss. -/
def cache_get (s : CacheStore) (k : String) : Option Nat :=
  (s k).join

/-- Python `cache.set(key, value)` (the timeout only affects expiry, which has
no counterpart in this timeless model). -/
def cache_set (s : CacheStore) (k : String) (v : Option Nat) : CacheStore :=
  fun k2 => if k2 = k then some v else s k2

/-- Python `cache.delete(key)`. -/
def cache_delete (s : CacheStore) (k : String) : CacheStore :=
  fun k2 => if k2 = k then none else s k2

/-- The identity of a model instance as used by `_get_cache_key`: its table
name and primary key. -/
structure MObj where
  db_table : String
  pk : Nat
deriving Repr, DecidableEq

/-- `_get_cache_key` (model_helpers.py lines 132-140):
`"%s.%s.%s" % (model_name, obj.pk, method_name)`. -/
def get_cache_key (obj : MObj) (method_name : String) : String :=
  obj.db_table ++ "." ++ toString obj.pk ++ "." ++ method_name

/-- Result of one property read: the returned value, the cache store after the
read, and whether the underlying method was invoked. -/
structure GetResult where
  value : Option Nat
  store : CacheStore
  invoked : Bool

/-- `get_x` (model_helpers.py lines 142-150): look the key up in the cache; on
`None` invoke the method, store its result, and return it; otherwise return the
cached value without invoking the method. -/
def get_x (f : MObj → Option Nat) (fname : String) (obj : MObj) (s : CacheStore) : GetResult :=
  match cache_get s (get_cache_key obj fname) with
  | some v => { value := some v, store := s, invoked := false }
  | none =>
    { value := f obj, store := cache_set s (get_cache_key obj fname) (f obj), invoked := true }

/-- `set_x` (model_helpers.py lines 162-173): store a value under the derived
key. -/
def set_x (fname : String) (obj : MObj) (v : Option Nat) (s : CacheStore) : CacheStore :=
  cache_set s (get_cache_key obj fname) v

/-- `del_x` (model_helpers.py lines 152-160): remove the derived key from the
cache. -/
def del_x (fname : String) (obj : MObj) (s : CacheStore) : CacheStore :=
  cache_delete s (get_cache_key obj fname)

/- ------------------------------------------------------------------
Choices (src/model_helpers/model_choices.py)
------------------------------------------------------------------ -/

/-- A choice's option dictionary: its id (a Python int or `None`) and its
optional display string (absent entries get a default during construction). -/
structure ChoiceOptions where
  id : Option Int
  display : Option String
deriving Repr, DecidableEq

/-- One entry of the input passed to `Choices.__init__`: either a bare id
(the `{"insect": 1}` form) or an options dictionary. -/
inductive ChoiceInput where
  | rawId (id : Option Int)
  | opts (options : ChoiceOptions)
deriving Repr, DecidableEq

/-- Python `str.capitalize()`: first character uppercased, the rest
lowercased. -/
def pyCapitalize (s : String) : String :=
  match s.data with
  | [] => ""
  | c :: cs => String.mk (c.toUpper :: cs.map Char.toLower)

/-- The display default of `Choices.__init__`:
`choice_code.replace("_", " ").capitalize()`. -/
def defaultDisplay (code : String) : String :=
  pyCapitalize (code.replace "_" " ")

/-- The per-entry normalization done by `Choices.__init__` (model_choices.py
lines 61-71): a bare id becomes an options dict, and a missing display gets
the default derived from the choice code. -/
def normalizeChoice (code : String) (ci : ChoiceInput) : ChoiceOptions :=
  let co : ChoiceOptions := match ci with
    | .rawId i => { id := i, display := none }
    | .opts o => o
  match co.display with
  | some _ => co
  | none => { co with display := some (defaultDisplay code) }

/-- Comparator for sorting the generated choice list by display name
(`choices_list.sort(key=lambda choice: choice[1])`). -/
def choiceLeDisplay (a b : Option Int × String) : Bool :=
  a.2 ≤ b.2

/-- Comparator for sorting the generated choice list by id
(`choices_list.sort(key=lambda choice: choice[0])`); Python cannot compare
`None` with an int, so this comparator (placing `none` first) is only
meaningful for all-int ids, the only case the code exercises. -/
def choiceLeId (a b : Option Int × String) : Bool :=
  match a.1, b.1 with
  | none, _ => true
  | some _, none => false
  | some x, some y => x ≤ y

/-- A `Choices` instance: the ordered mapping from choice code to options
(the `OrderedDict` contents after normalization), the generated Django choice
list `_choices`, the `order_by` mode, and the `_read_only` flag.  The lazily
populated `_choices_id` lookup cache is not modelled (no claim concerns it). -/
structure Choices where
  entries : List (String × ChoiceOptions)
  choicesList : List (Option Int × String)
  orderBy : String
  readOnly : Bool
deriving Repr, DecidableEq

/-- `Choices.__init__` (model_choices.py lines 39-80).  When the input is empty
the constructor returns before reaching the final `self._read_only = True`, so
an empty `Choices` is left writable; otherwise the entries are normalized, the
choice list is generated and sorted according to `order_by`, and the instance
ends read-only.  Input keys are taken as given (the claims never pass duplicate
keys). -/
def Choices.init (choices : List (String × ChoiceInput)) (orderBy : String) : Choices :=
  if choices = [] then
    { entries := [], choicesList := [], orderBy := orderBy, readOnly := false }
  else
    let entries := choices.map (fun p => (p.1, normalizeChoice p.1 p.2))
    let cl := entries.map (fun p => (p.2.id, p.2.display.getD ""))
    let sorted :=
      if orderBy = "display" then cl.mergeSort choiceLeDisplay
      else if orderBy = "id" then cl.mergeSort choiceLeId
      else cl
    { entries := entries, choicesList := sorted, orderBy := orderBy, readOnly := true }

/-- The message of the `TypeError` raised by mutation attempts on a read-only
`Choices`. -/
def readOnlyMsg : String := "Choices are constants and can\x27t be modified"

/-- `Choices.__setitem__` (model_choices.py lines 172-175): raises `TypeError`
when read-only, otherwise stores the item in the dict.  The pair returned is
(outcome, the instance afterwards): an exception leaves the instance as it
was. -/
def Choices.setItem (c : Choices) (k : String) (v : ChoiceOptions) :
    Except PyErr Unit × Choices :=
  if c.readOnly then (.error (.typeError readOnlyMsg), c)
  else (.ok (), { c with entries := dictInsert c.entries k v })

/-- `Choices.__setattr__` (model_choices.py lines 167-170): raises `TypeError`
when read-only and the attribute name is one of the choice codes; otherwise the
assignment writes an ordinary Python attribute, which leaves the modelled
fields unchanged. -/
def Choices.setAttr (c : Choices) (attr : String) : Except PyErr Unit × Choices :=
  if c.readOnly && c.entries.any (fun p => p.1 == attr) then
    (.error (.typeError readOnlyMsg), c)
  else (.ok (), c)

/-- `Choices.update` (model_choices.py lines 131-156): raises `TypeError` when
read-only; raises `ValueError` when the two instances share keys; otherwise
appends the new entries to the dict and the new choice pairs to `_choices`. -/
def Choices.update (c : Choices) (newData : Choices) : Except PyErr Unit × Choices :=
  if c.readOnly then (.error (.typeError readOnlyMsg), c)
  else
    let commonKeys := newData.entries.filter (fun p => c.entries.any (fun q => q.1 == p.1))
    if commonKeys = [] then
      (.ok (), { c with entries := c.entries ++ newData.entries,
                        choicesList := c.choicesList ++ newData.choicesList })
    else
      (.error (.valueError "The following keys exist in both instances"), c)

/-- `Choices.copy` (model_choices.py lines 126-129): a fresh empty (hence
writable) instance with the same `order_by`, updated with this instance's
contents. -/
def Choices.copy (c : Choices) : Choices :=
  ((Choices.init [] c.orderBy).update c).2

/-- `Choices.__add__` (model_choices.py lines 186-191): clears this instance's
read-only flag, copies it, updates the copy with the other operand inside a
`with` block whose exit marks the copy read-only, and restores this instance's
flag on the success path.  Returns (result or propagated exception, this
instance afterwards). -/
def Choices.add (c other : Choices) : Except PyErr Choices × Choices :=
  let c1 : Choices := { c with readOnly := false }
  let result := c1.copy
  match result.update other with
  | (.error e, _) => (.error e, c1)
  | (.ok _, r) => (.ok { r with readOnly := true }, { c1 with readOnly := true })

/- ------------------------------------------------------------------
SimpleGenericForeignKey (implementation absent from the sources; modelled
from the spec, sections 1 and 3, and pinned by tests/test_generic_forgein_key.py)
------------------------------------------------------------------ -/

/-- Modelled from the spec: the width, in bits, of the low field of the
"fixed-width packing scheme (index in high bits, primary key in low bits)".
The missing `SimpleGenericForeignKey` field code chooses the widths; the test
pins the low-field width to 8 bits (index 1 with primary key 1 encodes to
257). -/
def pk_bits : Nat := 8

/-- Modelled from the spec: "an encoded reference: a single integer combining
the registry index and the target entity's primary key via a fixed-width
packing scheme (index in high bits, primary key in low bits)". -/
def encode_ref (index pk : Nat) : Nat :=
  index * 2 ^ pk_bits + pk

/-- Modelled from the spec: decoding an encoded reference back into the
(registry index, primary key) pair from the high and low bits. -/
def decode_ref (n : Nat) : Nat × Nat :=
  (n / 2 ^ pk_bits, n % 2 ^ pk_bits)

/-- Modelled from the spec: "a registry: mapping from a small integer index to
a target entity type (a model)", kept as an association list in registration
order; model classes are identified by their names. -/
abbrev Registry : Type := List (Nat × String)

/-- Modelled from the spec: look a model up by its registry index. -/
def lookupIndex (reg : Registry) (idx : Nat) : Option String :=
  (reg.find? (fun p => p.1 == idx)).map (fun p => p.2)

/-- Modelled from the spec: look a registered model's index up by its name. -/
def lookupName (reg : Registry) (name : String) : Option Nat :=
  (reg.find? (fun p => p.2 == name)).map (fun p => p.1)

/-- Modelled from the spec and the test
`SimpleGenericForeignKey.register_generic_model(1)(ModelX)` raising
`AssertionError`: registering a model under an index that is already bound
fails with an assertion error and binds nothing; otherwise the binding is
added. -/
def register_generic_model (reg : Registry) (idx : Nat) (model : String) :
    Except PyErr Registry :=
  if reg.any (fun p => p.1 == idx) then
    .error (.assertionError "Index already registered")
  else .ok (reg ++ [(idx, model)])

/-- The registry invariant: "each registry index is unique". -/
def uniqueIndexes (reg : Registry) : Prop :=
  (reg.map Prod.fst).Nodup

/-- Modelled from the spec: an in-memory model instance holding a generic
foreign key: the raw encoded reference (or `None`) and the lazily fetched
target record, `none` while nothing has been fetched since the last mutation
of the reference. -/
structure XInstance (Obj : Type) where
  link : Option Nat
  cachedObj : Option Obj
deriving Repr, DecidableEq

/-- Modelled from the spec: the database as seen by the resolver — fetching a
record of a named model by primary key, `none` when no such row exists. -/
abbrev GFKDb (Obj : Type) : Type := String → Nat → Option Obj

/-- Modelled from the spec: resolving the target class of a reference
(`link__class`): a null reference resolves to no class; otherwise the decoded
index is looked up in the registry, and an unregistered index raises
`NotRegistered`. -/
def link_class (reg : Registry) (link : Option Nat) : Except PyErr (Option String) :=
  match link with
  | none => .ok none
  | some n =>
    match lookupIndex reg (decode_ref n).1 with
    | none => .error (.notRegistered "model index not registered")
    | some m => .ok (some m)

/-- Modelled from the spec: "a lazy resolution cache: once a reference is
decoded and the target record fetched, the in-memory object holds onto the
fetched record so repeated access does not re-query".  Accessing `link__obj`
returns the held record without touching the database when one is held; a null
reference yields no object; otherwise the reference is decoded, the model
looked up, and the record fetched (raising `DoesNotExist` for a missing row).
The result is (resolved object or error, the instance afterwards, whether a
database query was performed). -/
def access_obj {Obj : Type} (reg : Registry) (db : GFKDb Obj) (inst : XInstance Obj) :
    Except PyErr (Option Obj) × XInstance Obj × Bool :=
  match inst.cachedObj with
  | some o => (.ok (some o), inst, false)
  | none =>
    match inst.link with
    | none => (.ok none, inst, false)
    | some n =>
      match lookupIndex reg (decode_ref n).1 with
      | none => (.error (.notRegistered "model index not registered"), inst, false)
      | some mname =>
        match db mname (decode_ref n).2 with
        | none => (.error (.doesNotExist mname), inst, true)
        | some o => (.ok (some o), { inst with cachedObj := some o }, true)

/-- Modelled from the spec: "mutating the reference invalidates this cache" —
assigning a new raw reference drops the held record. -/
def assign_link {Obj : Type} (inst : XInstance Obj) (newLink : Option Nat) : XInstance Obj :=
  { inst with link := newLink, cachedObj := none }

/-- Modelled from the spec: the accepted filter forms for the generic foreign
key — a model instance, a (model class, id) tuple, a (model name, id) tuple,
or the encoded string "ModelName+id". -/
inductive FilterValue where
  | byInstance (model : String) (pk : Nat)
  | byModelTuple (model : String) (pk : Nat)
  | byNameTuple (name : String) (pk : Nat)
  | byString (s : String)
deriving Repr, DecidableEq

/-- Modelled from the spec: every accepted filter form is normalized to the
encoded integer reference that the column stores; an unregistered model raises
`NotRegistered` and a malformed encoded string raises `ValidationError`. -/
def normalize_filter (reg : Registry) : FilterValue → Except PyErr Nat
  | .byInstance m pk =>
    match lookupName reg m with
    | none => .error (.notRegistered m)
    | some i => .ok (encode_ref i pk)
  | .byModelTuple m pk =>
    match lookupName reg m with
    | none => .error (.notRegistered m)
    | some i => .ok (encode_ref i pk)
  | .byNameTuple m pk =>
    match lookupName reg m with
    | none => .error (.notRegistered m)
    | some i => .ok (encode_ref i pk)
  | .byString s =>
    match pySplit s "+" with
    | [name, pkStr] =>
      match pyToNat pkStr with
      | some pk =>
        match lookupName reg name with
        | none => .error (.notRegistered name)
        | some i => .ok (encode_ref i pk)
      | none => .error (.validationError s)
    | _ => .error (.validationError s)

/-- Modelled from the spec: filtering the table rows (row id, stored reference
column) by an encoded reference selects the rows whose column holds exactly
that integer. -/
def filter_rows (rows : List (Nat × Option Nat)) (enc : Nat) : List (Nat × Option Nat) :=
  rows.filter (fun r => r.2 == some enc)

/- ------------------------------------------------------------------
Theorems
------------------------------------------------------------------ -/

/-- C1: for every (registry index, primary key) pair whose primary key fits
the low-bit width, decoding the encoded single-integer reference yields the
original pair: encoding/decoding is a lossless round trip. -/
theorem C1_encode_decode_roundtrip (idx pk : Nat) (h : pk < 2 ^ pk_bits) :
    decode_ref (encode_ref idx pk) = (idx, pk) := by
  simp only [decode_ref, encode_ref, pk_bits, Prod.mk.injEq] at *
  norm_num at *
  omega

/-- Witness for C1 at index 1, primary key 1 (the encoded value 257 of the
test suite). -/
theorem C1_witness : 1 < 2 ^ pk_bits ∧ decode_ref (encode_ref 1 1) = (1, 1) :=
  ⟨by decide, C1_encode_decode_roundtrip 1 1 (by decide)⟩

/-- C2: the stored reference packs the registry index into the high bits and
the primary key into the low bits of the fixed-width layout; in particular the
model registered at index 1 with primary key 1 is stored as the single integer
257 (the stored reference is one ordinary integer — a `Nat` in this model). -/
theorem C2_fixed_width_packing (idx pk : Nat) (h : pk < 2 ^ pk_bits) :
    encode_ref 1 1 = 257 ∧
    encode_ref idx pk % 2 ^ pk_bits = pk ∧
    encode_ref idx pk / 2 ^ pk_bits = idx := by
  refine ⟨by decide, ?_, ?_⟩ <;>
  · simp only [encode_ref, pk_bits] at *
    norm_num at *
    omega

/-- Witness for C2 at index 1, primary key 1. -/
theorem C2_witness :
    encode_ref 1 1 = 257 ∧
    encode_ref 1 1 % 2 ^ pk_bits = 1 ∧
    encode_ref 1 1 / 2 ^ pk_bits = 1 :=
  C2_fixed_width_packing 1 1 (by decide)

/-- C3: a null reference decodes to no target at all: with the raw field value
`none`, the resolved target class is `none` and the resolved target object is
`none` (and no database query happens). -/
theorem C3_null_reference {Obj : Type} (reg : Registry) (db : GFKDb Obj)
    (inst : XInstance Obj) (h1 : inst.link = none) (h2 : inst.cachedObj = none) :
    link_class reg inst.link = .ok none ∧
    access_obj reg db inst = (.ok none, inst, false) := by
  constructor
  · rw [h1]; rfl
  · simp [access_obj, h1, h2]

/-- Witness for C3 on an instance holding a null reference. -/
theorem C3_witness :
    link_class [] ((⟨none, none⟩ : XInstance String)).link = .ok none ∧
    access_obj [] (fun _ _ => none) (⟨none, none⟩ : XInstance String) =
      (.ok none, (⟨none, none⟩ : XInstance String), false) :=
  C3_null_reference [] (fun _ _ => none) ⟨none, none⟩ rfl rfl

/-- C4: registering a model under an index that is already bound fails with an
assertion error and binds nothing, successful registration preserves the
invariant that each registry index maps to at most one model, and the empty
registry satisfies the invariant — so the invariant holds at every reachable
state. -/
theorem C4_unique_registry_indexes (reg : Registry) (idx : Nat) (m : String) :
    (reg.any (fun p => p.1 == idx) = true →
      register_generic_model reg idx m =
        .error (.assertionError "Index already registered")) ∧
    (uniqueIndexes reg → ∀ reg2, register_generic_model reg idx m = .ok reg2 →
      uniqueIndexes reg2) ∧
    uniqueIndexes ([] : Registry) := by
  refine ⟨fun h => by simp [register_generic_model, h], fun hu reg2 hok => ?_,
    by simp [uniqueIndexes]⟩
  unfold register_generic_model at hok
  split at hok
  · exact absurd hok (by simp)
  · rename_i h
    injection hok with hok
    subst hok
    unfold uniqueIndexes at *
    rw [List.map_append, List.nodup_append]
    refine ⟨hu, by simp, fun a ha hb => ?_⟩
    simp only [List.map_cons, List.map_nil, List.mem_singleton] at hb
    subst hb
    rcases List.mem_map.mp ha with ⟨p, hp, hpa⟩
    exact h (List.any_eq_true.mpr ⟨p, hp, by simp [hpa]⟩)

/-- Witness for C4: re-registering index 1 fails, and a successful registration
of a fresh index keeps the indexes unique. -/
theorem C4_witness :
    register_generic_model [(1, "ModelA")] 1 "ModelX" =
      .error (.assertionError "Index already registered") ∧
    uniqueIndexes [(1, "ModelA"), (2, "ModelB")] :=
  ⟨(C4_unique_registry_indexes [(1, "ModelA")] 1 "ModelX").1 (by decide),
   (C4_unique_registry_indexes [(1, "ModelA")] 2 "ModelB").2.1
     (by unfold uniqueIndexes; decide) [(1, "ModelA"), (2, "ModelB")] rfl⟩

/-- C5: after a read that resolved the reference and fetched the record (a
read that queried the database), any later access on the resulting instance
returns the held record with no database query — under any database state,
including one where the row was deleted; assigning a new value to the
reference drops the held record, and an access on an instance with no held
record and a non-null registered reference performs a database query (a fresh
resolution). -/
theorem C5_lazy_resolution_cache {Obj : Type} (reg : Registry) (db db2 db3 : GFKDb Obj)
    (inst inst2 : XInstance Obj) (o : Obj)
    (h1 : access_obj reg db inst = (.ok (some o), inst2, true)) :
    access_obj reg db2 inst2 = (.ok (some o), inst2, false) ∧
    (∀ l, (assign_link inst2 l).cachedObj = none) ∧
    (∀ (inst3 : XInstance Obj) (n : Nat) (mname : String),
      inst3.cachedObj = none → inst3.link = some n →
      lookupIndex reg (decode_ref n).1 = some mname →
      (access_obj reg db3 inst3).2.2 = true) := by
  have h2 : inst2.cachedObj = some o := by
    rcases hc : inst.cachedObj with _ | o2
    · rcases hl : inst.link with _ | n
      · simp [access_obj, hc, hl] at h1
      · rcases hr : lookupIndex reg (decode_ref n).1 with _ | mname
        · simp [access_obj, hc, hl, hr] at h1
        · rcases hd : db mname (decode_ref n).2 with _ | o2
          · simp [access_obj, hc, hl, hr, hd] at h1
          · simp only [access_obj, hc, hl, hr, hd, Prod.mk.injEq, Except.ok.injEq,
              Option.some.injEq] at h1
            rcases h1 with ⟨ho, hi, -⟩
            rw [← hi]
            simp [ho]
    · simp [access_obj, hc] at h1
  refine ⟨by simp [access_obj, h2], fun l => rfl, fun inst3 n mname hc3 hl3 hr3 => ?_⟩
  rcases hd : db3 mname (decode_ref n).2 with _ | o3 <;>
    simp [access_obj, hc3, hl3, hr3, hd]

/-- Witness for C5: the record fetched for reference 257 is returned again
from the instance itself even after every row has vanished from the database. -/
theorem C5_witness :
    access_obj [(1, "ModelA")] (fun _ _ => (none : Option String))
      (⟨some 257, some "I am model A"⟩ : XInstance String) =
      (.ok (some "I am model A"), (⟨some 257, some "I am model A"⟩ : XInstance String),
        false) :=
  (C5_lazy_resolution_cache [(1, "ModelA")] (fun _ _ => some "I am model A")
    (fun _ _ => none) (fun _ _ => none) ⟨some 257, none⟩ ⟨some 257, some "I am model A"⟩
    "I am model A" rfl).1

/-- C6: for a registered target model, the four filter forms — target
instance, (model class, id) tuple, (model name, id) tuple, and the encoded
string "ModelName+id" — normalize to the same encoded reference, and filtering
rows by it selects exactly the rows whose stored reference is that encoded
value. -/
theorem C6_filter_forms_equivalent (reg : Registry) (m s pkStr : String)
    (i pk : Nat) (rows : List (Nat × Option Nat))
    (hm : lookupName reg m = some i) (hsplit : pySplit s "+" = [m, pkStr])
    (hpk : pyToNat pkStr = some pk) :
    normalize_filter reg (.byInstance m pk) = .ok (encode_ref i pk) ∧
    normalize_filter reg (.byModelTuple m pk) = .ok (encode_ref i pk) ∧
    normalize_filter reg (.byNameTuple m pk) = .ok (encode_ref i pk) ∧
    normalize_filter reg (.byString s) = .ok (encode_ref i pk) ∧
    (∀ r, r ∈ filter_rows rows (encode_ref i pk) ↔
      r ∈ rows ∧ r.2 = some (encode_ref i pk)) := by
  refine ⟨by simp [normalize_filter, hm], by simp [normalize_filter, hm],
    by simp [normalize_filter, hm], by simp [normalize_filter, hsplit, hpk, hm],
    fun r => ?_⟩
  simp [filter_rows, List.mem_filter]

/-- Witness for C6: filtering by the encoded string "ModelA+1" matches the row
whose stored reference is 257. -/
theorem C6_witness :
    normalize_filter [(1, "ModelA")] (.byString "ModelA+1") = .ok (encode_ref 1 1) ∧
    ((1, some 257) ∈ filter_rows [(1, some 257), (2, some 513), (3, none)]
        (encode_ref 1 1) ↔
      (1, some 257) ∈ [(1, some 257), (2, some 513), (3, none)] ∧
        (some 257 : Option Nat) = some (encode_ref 1 1)) :=
  ⟨(C6_filter_forms_equivalent [(1, "ModelA")] "ModelA" "ModelA+1" "1" 1 1
      [(1, some 257), (2, some 513), (3, none)] (by decide) (by decide)
      (by decide)).2.2.2.1,
   (C6_filter_forms_equivalent [(1, "ModelA")] "ModelA" "ModelA+1" "1" 1 1
      [(1, some 257), (2, some 513), (3, none)] (by decide) (by decide)
      (by decide)).2.2.2.2 (1, some 257)⟩

/-- Parsing a list of lines fails iff some line is non-blank after stripping
and does not contain the separator, whatever dict has been accumulated so
far. -/
theorem parseLines_error_iff (sep : String) (ls : List String) :
    ∀ acc, (∃ e, parseLines sep ls acc = .error e) ↔
      ∃ line ∈ ls, pyStrip line ≠ "" ∧ strContains (pyStrip line) sep = false := by
  induction ls with
  | nil => simp [parseLines]
  | cons line rest ih =>
    intro acc
    by_cases hb : pyStrip line = ""
    · rw [show parseLines sep (line :: rest) acc = parseLines sep rest acc by
        simp [parseLines, hb]]
      rw [ih]
      simp only [List.mem_cons]
      constructor
      · rintro ⟨l, hl, h1, h2⟩
        exact ⟨l, Or.inr hl, h1, h2⟩
      · rintro ⟨l, hl | hl, h1, h2⟩
        · subst hl; exact absurd hb h1
        · exact ⟨l, hl, h1, h2⟩
    · by_cases hc : strContains (pyStrip line) sep = true
      · rw [show parseLines sep (line :: rest) acc =
            parseLines sep rest
              (dictInsert acc (pyStrip (splitFirst (pyStrip line) sep).1)
                (pyStrip (splitFirst (pyStrip line) sep).2)) by
          simp [parseLines, hb, hc]]
        rw [ih]
        simp only [List.mem_cons]
        constructor
        · rintro ⟨l, hl, h1, h2⟩
          exact ⟨l, Or.inr hl, h1, h2⟩
        · rintro ⟨l, hl | hl, h1, h2⟩
          · subst hl; rw [hc] at h2; exact absurd h2 (by simp)
          · exact ⟨l, hl, h1, h2⟩
      · constructor
        · intro _
          exact ⟨line, List.mem_cons_self line rest, hb, by simpa using hc⟩
        · intro _
          exact ⟨"Invalid syntax in line \x27" ++ pyStrip line ++ "\x27\nExpected: key " ++
            sep ++ " value", by simp [parseLines, hb, hc]⟩

/-- C7: assigning a string to the key-value field raises a validation error if
and only if some line of the string is non-blank after stripping and does not
contain the separator (blank lines are skipped, and each accepted line is
split at the first separator occurrence into a stripped key and a stripped
value, per `parseLines`). -/
theorem C7_keyvalue_validation_error (sep value : String) :
    (∃ e, from_db_value sep value = .error e) ↔
    ∃ line ∈ pySplit value "\n", pyStrip line ≠ "" ∧
      strContains (pyStrip line) sep = false := by
  unfold from_db_value parse_string
  by_cases hv : value = ""
  · subst hv
    constructor
    · rintro ⟨e, he⟩
      simp at he
    · rintro ⟨line, hl, h1, h2⟩
      rw [show pySplit "" "\n" = [""] from rfl] at hl
      simp at hl
      subst hl
      exact absurd rfl h1
  · rw [if_neg hv]
    rw [← parseLines_error_iff sep (pySplit value "\n") []]
    constructor
    · rintro ⟨e, he⟩
      cases hp : parseLines sep (pySplit value "\n") [] with
      | error e2 => exact ⟨e2, rfl⟩
      | ok d => rw [hp] at he; simp at he
    · rintro ⟨e, he⟩
      rw [he]
      exact ⟨.validationError e, rfl⟩

/-- Witness for C7: a string whose second line lacks the separator raises a
validation error, exhibited through the equivalence. -/
theorem C7_witness :
    ∃ e, from_db_value "=" "a = 1\nbad line" = .error e :=
  (C7_keyvalue_validation_error "=" "a = 1\nbad line").mpr
    ⟨"bad line", by decide, by decide, by decide⟩

/-- C8: reading a cached model property on a cache miss invokes the method and
stores the result under the key derived from the model's table name, the
instance's primary key and the method name; a read that finds a cached entry
returns the stored value without invoking the method; deleting the property
removes the cache entry, so the read after a delete invokes the method
again. -/
theorem C8_cached_model_property (f : MObj → Option Nat) (fname : String)
    (obj : MObj) (s : CacheStore) (v : Nat) :
    (cache_get s (get_cache_key obj fname) = none →
      get_x f fname obj s =
        { value := f obj, store := set_x fname obj (f obj) s, invoked := true }) ∧
    (cache_get s (get_cache_key obj fname) = some v →
      get_x f fname obj s = { value := some v, store := s, invoked := false }) ∧
    cache_get (del_x fname obj s) (get_cache_key obj fname) = none ∧
    (get_x f fname obj (del_x fname obj s)).invoked = true := by
  have hdel : cache_get (del_x fname obj s) (get_cache_key obj fname) = none := by
    simp [del_x, cache_delete, cache_get]
  refine ⟨fun h => ?_, fun h => ?_, hdel, ?_⟩
  · simp [get_x, h, set_x]
  · simp [get_x, h]
  · simp [get_x, hdel]

/-- Witness for C8: a first read on an empty cache invokes and stores; the
next read returns the stored value without invoking. -/
theorem C8_witness :
    get_x (fun _ => some 5) "points" ⟨"team", 7⟩ (fun _ => none) =
      { value := some 5, store := set_x "points" ⟨"team", 7⟩ (some 5) (fun _ => none),
        invoked := true } ∧
    get_x (fun _ => some 5) "points" ⟨"team", 7⟩
        (set_x "points" ⟨"team", 7⟩ (some 5) (fun _ => none)) =
      { value := some 5, store := set_x "points" ⟨"team", 7⟩ (some 5) (fun _ => none),
        invoked := false } :=
  ⟨(C8_cached_model_property (fun _ => some 5) "points" ⟨"team", 7⟩ (fun _ => none) 5).1
      rfl,
   (C8_cached_model_property (fun _ => some 5) "points" ⟨"team", 7⟩
      (set_x "points" ⟨"team", 7⟩ (some 5) (fun _ => none)) 5).2.1 rfl⟩

/-- C10: a `None` result is never effectively cached: storing `None` leaves
the key reading as a miss, so a method returning `None` is invoked on a read,
leaves the cache reading as a miss, and is invoked again on the next read;
only a non-`None` cached value short-circuits invocation. -/
theorem C10_none_never_cached (f : MObj → Option Nat) (fname : String) (obj : MObj)
    (s : CacheStore) (hf : f obj = none)
    (hmiss : cache_get s (get_cache_key obj fname) = none) :
    cache_get (set_x fname obj none s) (get_cache_key obj fname) = none ∧
    (get_x f fname obj s).invoked = true ∧
    (get_x f fname obj s).value = none ∧
    cache_get (get_x f fname obj s).store (get_cache_key obj fname) = none ∧
    (get_x f fname obj (get_x f fname obj s).store).invoked = true ∧
    (∀ (s2 : CacheStore) (v : Nat), cache_get s2 (get_cache_key obj fname) = some v →
      (get_x f fname obj s2).invoked = false) := by
  have h2 : cache_get (cache_set s (get_cache_key obj fname) none)
      (get_cache_key obj fname) = none := by
    simp [cache_set, cache_get]
  have hg : get_x f fname obj s =
      { value := none, store := cache_set s (get_cache_key obj fname) none,
        invoked := true } := by
    simp [get_x, hmiss, hf]
  refine ⟨by simpa [set_x] using h2, by rw [hg], by rw [hg], by rw [hg]; exact h2, ?_,
    fun s2 v h => by simp [get_x, h]⟩
  rw [hg]
  simp [get_x, h2]

/-- Witness for C10: a method returning `None` is invoked on the first read
and invoked again on the read after it. -/
theorem C10_witness :
    (get_x (fun _ => none) "points" ⟨"team", 7⟩ (fun _ => none)).invoked = true ∧
    (get_x (fun _ => none) "points" ⟨"team", 7⟩
      (get_x (fun _ => none) "points" ⟨"team", 7⟩ (fun _ => none)).store).invoked = true :=
  ⟨(C10_none_never_cached (fun _ => none) "points" ⟨"team", 7⟩ (fun _ => none) rfl
      rfl).2.1,
   (C10_none_never_cached (fun _ => none) "points" ⟨"team", 7⟩ (fun _ => none) rfl
      rfl).2.2.2.2.1⟩

/-- C9: on a read-only `Choices` instance, item assignment, attribute
assignment named after an existing choice, and `update` all raise `TypeError`
and leave the instance unchanged; a construction from nonempty input ends
read-only; and `+` with a key-disjoint operand returns a new read-only
instance holding both operands' entries and choice lists, with this operand's
entries unchanged afterwards (the other operand is never written at all). -/
theorem C9_choices_read_only (c other : Choices) (k attr : String) (v : ChoiceOptions)
    (hro : c.readOnly = true) :
    c.setItem k v = (.error (.typeError readOnlyMsg), c) ∧
    (c.entries.any (fun p => p.1 == attr) = true →
      c.setAttr attr = (.error (.typeError readOnlyMsg), c)) ∧
    c.update other = (.error (.typeError readOnlyMsg), c) ∧
    (∀ (choices : List (String × ChoiceInput)) (ob : String), choices ≠ [] →
      (Choices.init choices ob).readOnly = true) ∧
    (other.entries.filter (fun p => c.entries.any (fun q => q.1 == p.1)) = [] →
      ∃ r, c.add other = (.ok r, c) ∧
        r.entries = c.entries ++ other.entries ∧
        r.choicesList = c.choicesList ++ other.choicesList ∧
        r.readOnly = true) := by
  obtain ⟨ce, cl, cob, cro⟩ := c
  simp only at hro
  subst hro
  refine ⟨?_, ?_, ?_, ?_, ?_⟩
  · simp [Choices.setItem]
  · intro h
    simp only at h
    simp [Choices.setAttr, h]
  · simp [Choices.update]
  · intro choices ob h
    simp [Choices.init, h]
  · intro hdisj
    simp only at hdisj
    refine ⟨⟨ce ++ other.entries, cl ++ other.choicesList, cob, true⟩, ?_, rfl, rfl, rfl⟩
    simp [Choices.add, Choices.copy, Choices.init, Choices.update, hdisj]

/-- Witness for C9: a read-only instance built from one choice rejects item
assignment, and `+` with a disjoint instance returns the combined result. -/
theorem C9_witness :
    (Choices.init [("insect", ChoiceInput.rawId (some 1))] "display").setItem "insect"
        ⟨some 9, none⟩ =
      (.error (.typeError readOnlyMsg),
        Choices.init [("insect", ChoiceInput.rawId (some 1))] "display") ∧
    (∃ r, (Choices.init [("insect", ChoiceInput.rawId (some 1))] "display").add
          (Choices.init [("mammal", ChoiceInput.rawId (some 2))] "display") =
        (.ok r, Choices.init [("insect", ChoiceInput.rawId (some 1))] "display") ∧
      r.entries =
        (Choices.init [("insect", ChoiceInput.rawId (some 1))] "display").entries ++
          (Choices.init [("mammal", ChoiceInput.rawId (some 2))] "display").entries ∧
      r.choicesList =
        (Choices.init [("insect", ChoiceInput.rawId (some 1))] "display").choicesList ++
          (Choices.init [("mammal", ChoiceInput.rawId (some 2))] "display").choicesList ∧
      r.readOnly = true) :=
  ⟨(C9_choices_read_only (Choices.init [("insect", ChoiceInput.rawId (some 1))] "display")
      (Choices.init [("mammal", ChoiceInput.rawId (some 2))] "display") "insect" "insect"
      ⟨some 9, none⟩ (by decide)).1,
   (C9_choices_read_only (Choices.init [("insect", ChoiceInput.rawId (some 1))] "display")
      (Choices.init [("mammal", ChoiceInput.rawId (some 2))] "display") "insect" "insect"
      ⟨some 9, none⟩ (by decide)).2.2.2.2 (by decide)⟩
